import Mathlib

/-!
Shallow embedding of the HubSpot "Request Info" integration of the
vrm-properties-demo-site repository:

* `validatePayload` and the `POST` handler of the request-info API route
  (src/app/api/request-info/route.ts);
* the remote-call wrappers of src/lib/hubspot.ts
  (`submitContactToHubSpot`, `findContactByEmail`, `createContact`,
  `setMarketingConsent`, `findListingByExternalId`,
  `associateContactToListing`).

Remote I/O is modelled by an oracle (`FetchOutcome`) describing, for each
outbound HTTP call, whether the fetch (or the subsequent JSON parse that is
not guarded by a `.catch`) threw, returned a non-2xx response, or returned
an OK response with a given parsed body.  Environment variables are
modelled as `Option String` values.  The fixed consent delay in the
handler is pure timing and has no observable effect in the embedding.
-/

namespace VrmRequestInfo

/-- A JSON-ish runtime value, as far as the validation code discriminates:
it only ever tests `typeof x === "string"`/`"boolean"`, strict equality
with `true`, and JavaScript truthiness. -/
inductive JVal where
  | jstr (s : String)
  | jbool (b : Bool)
  | jnum (n : Int)
  | jnull
  | jobj
  | jarr
deriving DecidableEq, Repr

/-- JavaScript `String.prototype.trim`, crosswalked to a list-of-chars
computation (drop whitespace at both ends). -/
def jsTrim (s : String) : String :=
  String.mk
    (((s.data.dropWhile Char.isWhitespace).reverse.dropWhile
      Char.isWhitespace).reverse)

/-- JavaScript `String.prototype.toLowerCase`, crosswalked characterwise
(the data seen here is ASCII). -/
def jsToLower (s : String) : String := String.mk (s.data.map Char.toLower)

/-- JavaScript truthiness of a `JVal` (objects and arrays are truthy,
`null` is falsy, `""`, `false`, `0` are falsy). -/
def JVal.truthy : JVal → Bool
  | .jstr s => s ≠ ""
  | .jbool b => b
  | .jnum n => n ≠ 0
  | .jnull => false
  | .jobj => true
  | .jarr => true

/-- The inbound request body, as an object with the fields the route reads;
each field is absent (`none`) or holds an arbitrary JSON value. -/
structure Payload where
  firstname : Option JVal := none
  lastname : Option JVal := none
  email : Option JVal := none
  phone : Option JVal := none
  external_listing_id : Option JVal := none
  marketing_opt_in : Option JVal := none
  pageUri : Option JVal := none
  pageName : Option JVal := none
deriving DecidableEq, Repr

structure ValidationError where
  field : String
  message : String
deriving DecidableEq, Repr

/-- `RequestInfoFormData` from src/lib/hubspot.ts (same shape as the
route's `RequestInfoPayload`). -/
structure RequestInfoFormData where
  firstname : String
  lastname : String
  email : String
  phone : Option String
  external_listing_id : String
  marketing_opt_in : Bool
  pageUri : Option String
  pageName : Option String
deriving DecidableEq, Repr

/-- Return type of `validatePayload`:
`{valid:true, data}` or `{valid:false, errors}`. -/
inductive ValidationOutcome where
  | ok (data : RequestInfoFormData)
  | invalid (errors : List ValidationError)
deriving DecidableEq, Repr

/-- The route's email regular expression crosswalked to a predicate:
the trimmed email matches the JS test of the pattern
between start and end anchors, namely a nonempty run of characters that
are neither whitespace nor at-sign, an at-sign, and a domain part (no
whitespace, no at-sign) containing a dot that is neither its first nor its
last character. -/
def emailRegexMatch (s : String) : Bool :=
  let cs := s.toList
  let l := cs.takeWhile (fun c => c ≠ '@')
  let r := (cs.dropWhile (fun c => c ≠ '@')).drop 1
  cs.count '@' == 1 &&
  !l.isEmpty &&
  (l ++ r).all (fun c => !c.isWhitespace) &&
  ((r.drop 1).dropLast.contains '.')

/-- One required-string field check of `validatePayload`: the JS test
`!x || typeof x !== "string" || x.trim() === ""`. Returns the field error
when the check fires. -/
def requiredStringError (v : Option JVal) (fieldName msg : String) :
    List ValidationError :=
  match v with
  | some (.jstr s) => if jsTrim s = "" then [⟨fieldName, msg⟩] else []
  | _ => [⟨fieldName, msg⟩]

/-- The email checks of `validatePayload`: the required-string test, then
the regex test on the trimmed value. -/
def emailErrors (v : Option JVal) : List ValidationError :=
  match v with
  | some (.jstr s) =>
      if jsTrim s = "" then [⟨"email", "Email is required"⟩]
      else if !emailRegexMatch (jsTrim s) then
        [⟨"email", "Email must be a valid email address"⟩]
      else []
  | _ => [⟨"email", "Email is required"⟩]

/-- The strict opt-in check: `data.marketing_opt_in !== true`. -/
def marketingOptInErrors (v : Option JVal) : List ValidationError :=
  if v = some (.jbool true) then []
  else [⟨"marketing_opt_in",
    "You must agree to receive marketing communications to submit this form."⟩]

/-- The cast `(data.f as string)` used when building the sanitized data
(only reached when the field validated as a nonempty string). -/
def asStr (v : Option JVal) : String :=
  match v with
  | some (.jstr s) => s
  | _ => ""

/-- `typeof x === "string" ? x.trim() : undefined` (for `phone`). -/
def optTrimmedStr (v : Option JVal) : Option String :=
  match v with
  | some (.jstr s) => some (jsTrim s)
  | _ => none

/-- `typeof x === "string" ? x : undefined` (for `pageUri`/`pageName`). -/
def optStr (v : Option JVal) : Option String :=
  match v with
  | some (.jstr s) => some s
  | _ => none

/-- `validatePayload` from the route.  The argument is `none` when the
request body was not a JSON object (including the `null` produced when
`request.json()` rejected). Error list order follows the source: email,
external_listing_id, marketing_opt_in, firstname, lastname. -/
def validatePayload (payload : Option Payload) : ValidationOutcome :=
  match payload with
  | none => .invalid [⟨"body", "Request body must be a JSON object"⟩]
  | some data =>
    let errors :=
      emailErrors data.email ++
      requiredStringError data.external_listing_id "external_listing_id"
        "External listing ID is required" ++
      marketingOptInErrors data.marketing_opt_in ++
      requiredStringError data.firstname "firstname" "First name is required" ++
      requiredStringError data.lastname "lastname" "Last name is required"
    if errors.isEmpty then
      .ok {
        firstname := jsTrim (asStr data.firstname)
        lastname := jsTrim (asStr data.lastname)
        email := jsToLower (jsTrim (asStr data.email))
        phone := optTrimmedStr data.phone
        external_listing_id := jsTrim (asStr data.external_listing_id)
        marketing_opt_in := true
        pageUri := optStr data.pageUri
        pageName := optStr data.pageName
      }
    else .invalid errors

/-! ### Remote-call oracle -/

/-- What a single outbound `fetch` call (together with the unguarded JSON
parse of an OK body, where the source has one) observably did:
`fetchThrow` — the fetch or the unguarded parse rejected (network error,
thrown exception); `badResponse` — a non-2xx response (`response.ok`
false) with a status and status text; `okResponse` — a 2xx response whose
parsed body is `body`. -/
inductive FetchOutcome (α : Type) where
  | fetchThrow (msg : String)
  | badResponse (status : Nat) (statusText : String)
  | okResponse (body : α)
deriving DecidableEq, Repr

/-- Parsed body of a Forms API submission response: the optional
`contactId` the source reads off it. -/
structure FormSubmitBody where
  contactId : Option String := none
deriving DecidableEq, Repr

/-- Parsed body of a CRM search response: `none` when the `results` field
is absent, otherwise the list of record ids (`results[i].id`). -/
structure SearchBody where
  results : Option (List String) := none
deriving DecidableEq, Repr

/-- Parsed body of a contact-creation response: the optional `id`. -/
structure CreateBody where
  id : Option String := none
deriving DecidableEq, Repr

/-- Parsed body of a CRM v4 association batch response: `none` when the
`errors` field is absent (also the case when the guarded parse fell back
to `{}`), otherwise the (stringified) error entries. -/
structure AssocBody where
  errors : Option (List String) := none
deriving DecidableEq, Repr

/-- JavaScript truthiness of an optional string (`undefined` and `""` are
falsy), used for `if (x)` tests on ids. -/
def strTruthy (o : Option String) : Bool :=
  match o with
  | some s => s ≠ ""
  | none => false

/-- JavaScript `a || b` for an optional string with a default. -/
def strOrDefault (o : Option String) (d : String) : String :=
  match o with
  | some s => if s = "" then d else s
  | none => d

/-! ### Result shapes (src/lib/hubspot.ts) -/

structure HubSpotFormSubmissionResult where
  success : Bool
  error : Option String := none
  contactId : Option String := none
deriving DecidableEq, Repr

structure HubSpotContactSearchResult where
  success : Bool
  contactId : Option String := none
  error : Option String := none
deriving DecidableEq, Repr

structure HubSpotContactCreationResult where
  success : Bool
  contactId : Option String := none
  error : Option String := none
deriving DecidableEq, Repr

structure HubSpotConsentResult where
  success : Bool
  error : Option String := none
  contactId : Option String := none
deriving DecidableEq, Repr

/-- `HubSpotListingLookupResult`. The source sets `notFound` explicitly on
every return path of `findListingByExternalId`, so the optional field is
modelled as a plain `Bool`. -/
structure HubSpotListingLookupResult where
  success : Bool
  listingId : Option String := none
  error : Option String := none
  notFound : Bool := false
deriving DecidableEq, Repr

structure HubSpotAssociationResult where
  success : Bool
  error : Option String := none
deriving DecidableEq, Repr

/-! ### Remote-call wrappers (src/lib/hubspot.ts) -/

def missingPortalMsg : String := "HUBSPOT_PORTAL_ID environment variable is not set"
def missingFormGuidMsg : String := "HUBSPOT_FORM_GUID environment variable is not set"
def missingTokenMsg : String := "HUBSPOT_ACCESS_TOKEN environment variable is not set"

/-- `submitContactToHubSpot`: posts the form fields to the Forms API.
`portalId`/`formGuid` are the environment variables (`getPortalId` and
`getFormGuid` throw when unset, which the wrapper's own catch converts to
a failure result). -/
def submitContactToHubSpot (_formData : RequestInfoFormData)
    (portalId formGuid : Option String)
    (fetch : FetchOutcome FormSubmitBody) : HubSpotFormSubmissionResult :=
  match portalId with
  | none => { success := false, error := some missingPortalMsg }
  | some _ =>
  match formGuid with
  | none => { success := false, error := some missingFormGuidMsg }
  | some _ =>
  match fetch with
  | .fetchThrow msg => { success := false, error := some msg }
  | .badResponse st stx =>
      { success := false, error := some s!"HubSpot Forms API error: {st} {stx}" }
  | .okResponse body => { success := true, contactId := body.contactId }

/-- `findContactByEmail`: CRM contact search by exact email.  An OK
response with zero (or missing) results is a successful search with no
contact id. -/
def findContactByEmail (_email : String) (accessToken : Option String)
    (fetch : FetchOutcome SearchBody) : HubSpotContactSearchResult :=
  match accessToken with
  | none => { success := false, error := some missingTokenMsg }
  | some _ =>
  match fetch with
  | .fetchThrow msg => { success := false, error := some msg }
  | .badResponse st _ =>
      { success := false, error := some s!"Failed to search for contact: {st}" }
  | .okResponse body =>
      match body.results with
      | none => { success := true, contactId := none }
      | some [] => { success := true, contactId := none }
      | some (id :: _) => { success := true, contactId := some id }

structure ContactCreateData where
  email : String
  firstname : String
  lastname : String
  phone : Option String := none
deriving DecidableEq, Repr

/-- `createContact`: CRM contact creation. -/
def createContact (_contactData : ContactCreateData) (accessToken : Option String)
    (fetch : FetchOutcome CreateBody) : HubSpotContactCreationResult :=
  match accessToken with
  | none => { success := false, error := some missingTokenMsg }
  | some _ =>
  match fetch with
  | .fetchThrow msg => { success := false, error := some msg }
  | .badResponse st stx =>
      { success := false, error := some s!"Failed to create contact: {st} {stx}" }
  | .okResponse body => { success := true, contactId := body.id }

structure ConsentContactData where
  firstname : String
  lastname : String
  phone : Option String := none
deriving DecidableEq, Repr

/-- `setMarketingConsent`, instrumented: the second component records
whether the `createContact` compensation path was invoked.  Follows the
source: search by email; if no (truthy) contact id, create the contact
when fallback `contactData` was supplied, else fail; then patch the legal
basis.  The patch-failure return carries the resolved `contactId`. -/
def setMarketingConsentAux (email : String)
    (contactData : Option ConsentContactData) (accessToken : Option String)
    (searchFetch : FetchOutcome SearchBody) (createFetch : FetchOutcome CreateBody)
    (patchFetch : FetchOutcome Unit) : HubSpotConsentResult × Bool :=
  match accessToken with
  | none => ({ success := false, error := some missingTokenMsg }, false)
  | some _ =>
    let searchResult := findContactByEmail email accessToken searchFetch
    if searchResult.success = false then
      ({ success := false, error := searchResult.error }, false)
    else
      let patchStep : String → Bool → HubSpotConsentResult × Bool :=
        fun contactId created =>
          match patchFetch with
          | .fetchThrow msg => ({ success := false, error := some msg }, created)
          | .badResponse st _ =>
              ({ success := false,
                 error := some s!"Failed to update contact marketing consent: {st}",
                 contactId := some contactId }, created)
          | .okResponse _ =>
              ({ success := true, contactId := some contactId }, created)
      if strTruthy searchResult.contactId = false then
        match contactData with
        | none =>
            ({ success := false,
               error := some "Contact not found in HubSpot and no contact data provided for creation" },
             false)
        | some cd =>
            let createResult := createContact
              ⟨email, cd.firstname, cd.lastname, cd.phone⟩ accessToken createFetch
            if createResult.success = false ∨ strTruthy createResult.contactId = false then
              ({ success := false,
                 error := some (strOrDefault createResult.error "Failed to create contact") },
               true)
            else
              patchStep (createResult.contactId.getD "") true
      else
        patchStep (searchResult.contactId.getD "") false

/-- `setMarketingConsent` as the orchestrator sees it. -/
def setMarketingConsent (email : String)
    (contactData : Option ConsentContactData) (accessToken : Option String)
    (searchFetch : FetchOutcome SearchBody) (createFetch : FetchOutcome CreateBody)
    (patchFetch : FetchOutcome Unit) : HubSpotConsentResult :=
  (setMarketingConsentAux email contactData accessToken searchFetch createFetch
    patchFetch).1

/-- `findListingByExternalId`: guard against a blank external id (before
any remote call), then search the Listings object by the trimmed id.
Zero/missing results is the `notFound := true` outcome; every other
failure reports `notFound := false`. -/
def findListingByExternalId (externalListingId : String)
    (accessToken : Option String)
    (fetch : FetchOutcome SearchBody) : HubSpotListingLookupResult :=
  let trimmedId := jsTrim externalListingId
  if trimmedId = "" then
    { success := false,
      error := some "external_listing_id is required and cannot be empty",
      notFound := false }
  else
    match accessToken with
    | none => { success := false, error := some missingTokenMsg, notFound := false }
    | some _ =>
    match fetch with
    | .fetchThrow msg => { success := false, error := some msg, notFound := false }
    | .badResponse st stx =>
        { success := false,
          error := some s!"HubSpot API error: {st} {stx}", notFound := false }
    | .okResponse body =>
        match body.results with
        | none =>
            { success := false,
              error := some s!"No listing found with external_listing_id: {trimmedId}. Ensure the Listing exists in HubSpot with this assetId.",
              notFound := true }
        | some [] =>
            { success := false,
              error := some s!"No listing found with external_listing_id: {trimmedId}. Ensure the Listing exists in HubSpot with this assetId.",
              notFound := true }
        | some (id :: _) =>
            { success := true, listingId := some id, notFound := false }

/-- `associateContactToListing`: defensive guards on blank ids (before any
remote call), then the CRM v4 batch association call; an OK response whose
body lists batch errors is still a failure. -/
def associateContactToListing (contactId listingId : String)
    (accessToken : Option String)
    (fetch : FetchOutcome AssocBody) : HubSpotAssociationResult :=
  let trimmedContactId := jsTrim contactId
  let trimmedListingId := jsTrim listingId
  if trimmedContactId = "" then
    { success := false, error := some "contactId is required for association" }
  else if trimmedListingId = "" then
    { success := false,
      error := some "listingId is required for association - resolve via findListingByExternalId first" }
  else
    match accessToken with
    | none => { success := false, error := some missingTokenMsg }
    | some _ =>
    match fetch with
    | .fetchThrow msg => { success := false, error := some msg }
    | .badResponse st _ =>
        { success := false,
          error := some s!"HubSpot association error: {st} - verify both Contact and Listing IDs are valid HubSpot record IDs" }
    | .okResponse body =>
        match body.errors with
        | some es =>
            if es.length > 0 then
              { success := false,
                error := some (String.append "Association batch error: "
                  (String.intercalate "," es)) }
            else { success := true }
        | none => { success := true }

/-! ### The POST handler (src/app/api/request-info/route.ts) -/

/-- The environment and the behaviour of each outbound call the handler
may make, fixed up front (each remote call is made at most once per
request, so one outcome per call suffices). -/
structure World where
  portalId : Option String := none
  formGuid : Option String := none
  accessToken : Option String := none
  submitFetch : FetchOutcome FormSubmitBody := .fetchThrow "unreached"
  contactSearchFetch : FetchOutcome SearchBody := .fetchThrow "unreached"
  createFetch : FetchOutcome CreateBody := .fetchThrow "unreached"
  patchFetch : FetchOutcome Unit := .fetchThrow "unreached"
  listingFetch : FetchOutcome SearchBody := .fetchThrow "unreached"
  assocFetch : FetchOutcome AssocBody := .fetchThrow "unreached"
deriving DecidableEq, Repr

/-- The `details` object of the response. -/
structure Details where
  contactSubmitted : Bool
  marketingConsentSet : Bool
  listingFound : Bool
  associationCreated : Bool
deriving DecidableEq, Repr

/-- The JSON body plus HTTP status of a handler response (`ApiResponse`
in the source, with the status code made explicit). -/
structure ApiResponse where
  status : Nat
  success : Bool
  message : String
  errors : Option (List ValidationError) := none
  details : Option Details := none
deriving DecidableEq, Repr

/-- Which orchestration steps the handler actually performed:
whether each wrapper was invoked, whether the consent step's
contact-creation compensation ran, and — when the association wrapper was
invoked — the exact `(contactId, listingId)` argument pair passed to it. -/
structure CallLog where
  submitCalled : Bool := false
  consentCalled : Bool := false
  createCalled : Bool := false
  listingCalled : Bool := false
  assocArgs : Option (String × String) := none
deriving DecidableEq, Repr

/-- The message built on the listing-lookup failure branch. -/
def listingFailureMessage (fd : RequestInfoFormData)
    (lr : HubSpotListingLookupResult) : String :=
  let eid := fd.external_listing_id
  let base := "Contact created successfully, but listing not found for association"
  let detail :=
    if lr.notFound then
      s!"Listing not found in HubSpot for external_listing_id (assetId): {eid}. Ensure the Listing exists with this ID."
    else
      let err := lr.error.getD "undefined"
      s!"Failed to look up Listing: {err}"
  s!"{base}. {detail}"

/-- The validated branch of the `POST` handler: submit the contact (fatal
on failure), set marketing consent (tolerated, called with the email
only), resolve the listing by external id (tolerated; skip association on
failure), and associate contact to listing when both ids are truthy.
Returns the response and the log of outbound steps taken.  The
configurable consent delay (a pure wait) is elided. -/
def handleValidated (formData : RequestInfoFormData) (w : World) :
    ApiResponse × CallLog :=
    let contactResult :=
      submitContactToHubSpot formData w.portalId w.formGuid w.submitFetch
    if contactResult.success = false then
      ({ status := 500, success := false,
         message := "Failed to submit contact information to HubSpot",
         details := some ⟨false, false, false, false⟩ },
       { submitCalled := true })
    else
      let consentPair := setMarketingConsentAux formData.email none
        w.accessToken w.contactSearchFetch w.createFetch w.patchFetch
      let consentResult := consentPair.1
      let mcs := consentResult.success
      let listingResult := findListingByExternalId formData.external_listing_id
        w.accessToken w.listingFetch
      let log : CallLog :=
        { submitCalled := true, consentCalled := true,
          createCalled := consentPair.2, listingCalled := true }
      if listingResult.success = false then
        ({ status := 200, success := true,
           message := listingFailureMessage formData listingResult,
           details := some ⟨true, mcs, false, false⟩ }, log)
      else
        if strTruthy consentResult.contactId && strTruthy listingResult.listingId then
          let cid := consentResult.contactId.getD ""
          let lid := listingResult.listingId.getD ""
          let associationResult :=
            associateContactToListing cid lid w.accessToken w.assocFetch
          ({ status := 200, success := true,
             message := "Request submitted successfully",
             details := some ⟨true, mcs, true, associationResult.success⟩ },
           { log with assocArgs := some (cid, lid) })
        else
          ({ status := 200, success := true,
             message := "Request submitted successfully",
             details := some ⟨true, mcs, true, false⟩ }, log)

/-- The `POST` handler: validation (a 400 with the structured field-error
list on failure, no outbound call), then the orchestrated workflow. -/
def POST (body : Option Payload) (w : World) : ApiResponse × CallLog :=
  match validatePayload body with
  | .invalid errs =>
      ({ status := 400, success := false, message := "Validation failed",
         errors := some errs }, {})
  | .ok formData => handleValidated formData w

/-! ### Abbreviations for the orchestrated steps -/

/-- The contact-upsert step exactly as the handler invokes it. -/
def contactStep (fd : RequestInfoFormData) (w : World) :
    HubSpotFormSubmissionResult :=
  submitContactToHubSpot fd w.portalId w.formGuid w.submitFetch

/-- The consent step exactly as the handler invokes it (email only, no
fallback contact data), with the created-contact flag. -/
def consentStepAux (fd : RequestInfoFormData) (w : World) :
    HubSpotConsentResult × Bool :=
  setMarketingConsentAux fd.email none w.accessToken w.contactSearchFetch
    w.createFetch w.patchFetch

/-- The consent step's result as the handler sees it. -/
def consentStep (fd : RequestInfoFormData) (w : World) : HubSpotConsentResult :=
  setMarketingConsent fd.email none w.accessToken w.contactSearchFetch
    w.createFetch w.patchFetch

/-- The listing-resolution step exactly as the handler invokes it. -/
def listingStep (fd : RequestInfoFormData) (w : World) :
    HubSpotListingLookupResult :=
  findListingByExternalId fd.external_listing_id w.accessToken w.listingFetch

/-- The association step exactly as the handler invokes it. -/
def assocStep (fd : RequestInfoFormData) (w : World) : HubSpotAssociationResult :=
  associateContactToListing ((consentStep fd w).contactId.getD "")
    ((listingStep fd w).listingId.getD "") w.accessToken w.assocFetch

/-- The aggregate message the handler returns when the listing lookup
reported not-found, written as one closed string. -/
def listingNotFoundResponseMessage (eid : String) : String :=
  s!"Contact created successfully, but listing not found for association. Listing not found in HubSpot for external_listing_id (assetId): {eid}. Ensure the Listing exists with this ID."

/-! ### Concrete inputs used by the witnesses -/

/-- The spec's scenario-literal payload. -/
def johnPayload : Payload :=
  { firstname := some (.jstr "John"), lastname := some (.jstr "Doe"),
    email := some (.jstr "JOHN.DOE@Example.com"),
    external_listing_id := some (.jstr " 22317 "),
    marketing_opt_in := some (.jbool true) }

/-- The normalized form of `johnPayload`. -/
def johnForm : RequestInfoFormData :=
  { firstname := "John", lastname := "Doe", email := "john.doe@example.com",
    phone := none, external_listing_id := "22317", marketing_opt_in := true,
    pageUri := none, pageName := none }

/-- The scenario payload with a string `"true"` opt-in instead of the
boolean. -/
def optOutPayload : Payload :=
  { johnPayload with marketing_opt_in := some (.jstr "true") }

/-- A world where the contact upsert gets a non-2xx response. -/
def contactFailWorld : World :=
  { portalId := some "p", formGuid := some "f", accessToken := some "t",
    submitFetch := .badResponse 502 "Bad Gateway" }

/-- A world where everything works except that the listing search returns
zero results. -/
def listingMissingWorld : World :=
  { portalId := some "p", formGuid := some "f", accessToken := some "t",
    submitFetch := .okResponse {},
    contactSearchFetch := .okResponse { results := some ["101"] },
    patchFetch := .okResponse (),
    listingFetch := .okResponse { results := some [] } }

/-- A world where the consent patch fails after the contact id was
resolved, while the listing resolves and the association call succeeds. -/
def patchFailWorld : World :=
  { portalId := some "p", formGuid := some "f", accessToken := some "t",
    submitFetch := .okResponse {},
    contactSearchFetch := .okResponse { results := some ["101"] },
    patchFetch := .badResponse 500 "Internal Server Error",
    listingFetch := .okResponse { results := some ["202"] },
    assocFetch := .okResponse {} }

/-- A world where the contact search succeeds with zero results (the
upserted contact is not yet visible). -/
def contactMissingWorld : World :=
  { portalId := some "p", formGuid := some "f", accessToken := some "t",
    submitFetch := .okResponse {},
    contactSearchFetch := .okResponse { results := some [] },
    listingFetch := .okResponse { results := some ["202"] } }

/-! ### Helper lemmas -/

lemma strTruthy_eq_true_iff (o : Option String) :
    strTruthy o = true ↔ ∃ s, o = some s ∧ s ≠ "" := by
  cases o <;> simp [strTruthy]

lemma POST_ok_eq (body : Option Payload) (w : World) (fd : RequestInfoFormData)
    (hv : validatePayload body = .ok fd) : POST body w = handleValidated fd w := by
  simp [POST, hv]

lemma handleValidated_contact_fail (fd : RequestInfoFormData) (w : World)
    (h : (contactStep fd w).success = false) :
    handleValidated fd w =
      ({ status := 500, success := false,
         message := "Failed to submit contact information to HubSpot",
         details := some ⟨false, false, false, false⟩ },
       { submitCalled := true }) := by
  simp [handleValidated, contactStep] at h ⊢
  simp [h]

lemma handleValidated_listing_fail (fd : RequestInfoFormData) (w : World)
    (hc : (contactStep fd w).success = true)
    (hl : (listingStep fd w).success = false) :
    handleValidated fd w =
      ({ status := 200, success := true,
         message := listingFailureMessage fd (listingStep fd w),
         details := some ⟨true, (consentStep fd w).success, false, false⟩ },
       { submitCalled := true, consentCalled := true,
         createCalled := (consentStepAux fd w).2, listingCalled := true }) := by
  simp [contactStep] at hc
  simp [listingStep] at hl
  simp [handleValidated, listingStep, consentStep, consentStepAux,
    setMarketingConsent, hc, hl]

lemma handleValidated_assoc (fd : RequestInfoFormData) (w : World)
    (hc : (contactStep fd w).success = true)
    (hl : (listingStep fd w).success = true)
    (ht : (strTruthy (consentStep fd w).contactId &&
           strTruthy (listingStep fd w).listingId) = true) :
    handleValidated fd w =
      ({ status := 200, success := true,
         message := "Request submitted successfully",
         details := some ⟨true, (consentStep fd w).success, true,
           (assocStep fd w).success⟩ },
       { submitCalled := true, consentCalled := true,
         createCalled := (consentStepAux fd w).2, listingCalled := true,
         assocArgs := some ((consentStep fd w).contactId.getD "",
           (listingStep fd w).listingId.getD "") }) := by
  simp [contactStep] at hc
  simp [listingStep] at hl
  simp only [consentStep, setMarketingConsent, listingStep] at ht
  simp [handleValidated, listingStep, consentStep, consentStepAux, assocStep,
    setMarketingConsent, hc, hl, ht]

lemma handleValidated_assoc_skip (fd : RequestInfoFormData) (w : World)
    (hc : (contactStep fd w).success = true)
    (hl : (listingStep fd w).success = true)
    (ht : (strTruthy (consentStep fd w).contactId &&
           strTruthy (listingStep fd w).listingId) = false) :
    handleValidated fd w =
      ({ status := 200, success := true,
         message := "Request submitted successfully",
         details := some ⟨true, (consentStep fd w).success, true, false⟩ },
       { submitCalled := true, consentCalled := true,
         createCalled := (consentStepAux fd w).2, listingCalled := true }) := by
  simp [contactStep] at hc
  simp [listingStep] at hl
  simp only [consentStep, setMarketingConsent, listingStep] at ht
  simp [handleValidated, listingStep, consentStep, consentStepAux,
    setMarketingConsent, hc, hl, ht]

set_option maxRecDepth 10000 in
lemma listingFailureMessage_notFound (fd : RequestInfoFormData)
    (lr : HubSpotListingLookupResult) (h : lr.notFound = true) :
    listingFailureMessage fd lr =
      listingNotFoundResponseMessage fd.external_listing_id := by
  simp only [listingFailureMessage, listingNotFoundResponseMessage, h, if_true]
  apply String.ext
  have tos : ∀ s : String, toString s = s := fun s => rfl
  have hemp : ("" : String).data = ([] : List Char) := rfl
  simp only [tos, String.data_append, hemp, List.append_assoc, List.nil_append,
    List.append_nil]
  rw [← List.append_assoc, ← List.append_assoc]
  congr 1

lemma submit_failure_has_error (fd : RequestInfoFormData) (p g : Option String)
    (f : FetchOutcome FormSubmitBody) :
    ((submitContactToHubSpot fd p g f).success = false →
      (submitContactToHubSpot fd p g f).error.isSome = true) ∧
    (p = none ∨ g = none ∨ (∃ m, f = .fetchThrow m) ∨
      (∃ st stx, f = .badResponse st stx) →
      (submitContactToHubSpot fd p g f).success = false) := by
  cases p <;> cases g <;> cases f <;> simp [submitContactToHubSpot]

lemma contact_search_failure_has_error (email : String) (tok : Option String)
    (f : FetchOutcome SearchBody) :
    ((findContactByEmail email tok f).success = false →
      (findContactByEmail email tok f).error.isSome = true) ∧
    (tok = none ∨ (∃ m, f = .fetchThrow m) ∨
      (∃ st stx, f = .badResponse st stx) →
      (findContactByEmail email tok f).success = false) := by
  cases tok with
  | none => simp [findContactByEmail]
  | some t =>
    cases f with
    | fetchThrow m => simp [findContactByEmail]
    | badResponse st stx => simp [findContactByEmail]
    | okResponse body =>
      rcases body with ⟨res⟩
      rcases res with _ | ⟨_ | ⟨id, rest⟩⟩ <;> simp [findContactByEmail]

lemma create_failure_has_error (cd : ContactCreateData) (tok : Option String)
    (f : FetchOutcome CreateBody) :
    ((createContact cd tok f).success = false →
      (createContact cd tok f).error.isSome = true) ∧
    (tok = none ∨ (∃ m, f = .fetchThrow m) ∨
      (∃ st stx, f = .badResponse st stx) →
      (createContact cd tok f).success = false) := by
  cases tok <;> cases f <;> simp [createContact]

lemma consent_failure_has_error (email : String) (cd : Option ConsentContactData)
    (tok : Option String) (f2 : FetchOutcome SearchBody)
    (f3 : FetchOutcome CreateBody) (f4 : FetchOutcome Unit) :
    ((setMarketingConsent email cd tok f2 f3 f4).success = false →
      (setMarketingConsent email cd tok f2 f3 f4).error.isSome = true) ∧
    (tok = none ∨ (∃ m, f4 = .fetchThrow m) ∨
      (∃ st stx, f4 = .badResponse st stx) →
      (setMarketingConsent email cd tok f2 f3 f4).success = false) := by
  cases tok with
  | none => simp [setMarketingConsent, setMarketingConsentAux]
  | some t =>
    simp only [setMarketingConsent, setMarketingConsentAux]
    cases f2 with
    | fetchThrow m => simp [findContactByEmail]
    | badResponse st stx => simp [findContactByEmail]
    | okResponse body =>
      rcases body with ⟨res⟩
      rcases res with _ | ⟨_ | ⟨id, rest⟩⟩
      · cases cd with
        | none => simp [findContactByEmail, strTruthy]
        | some c =>
          cases f3 with
          | fetchThrow m =>
              simp [findContactByEmail, createContact, strTruthy, strOrDefault]
          | badResponse st stx =>
              simp [findContactByEmail, createContact, strTruthy, strOrDefault]
          | okResponse cb =>
            rcases cb with ⟨cbid⟩
            rcases cbid with _ | cbid
            · simp [findContactByEmail, createContact, strTruthy, strOrDefault]
            · by_cases hid : cbid = ""
              · simp [findContactByEmail, createContact, strTruthy,
                  strOrDefault, hid]
              · cases f4 with
                | fetchThrow m =>
                    simp [findContactByEmail, createContact, strTruthy, hid]
                | badResponse st stx =>
                    simp [findContactByEmail, createContact, strTruthy, hid]
                | okResponse u =>
                    simp [findContactByEmail, createContact, strTruthy, hid]
      · cases cd with
        | none => simp [findContactByEmail, strTruthy]
        | some c =>
          cases f3 with
          | fetchThrow m =>
              simp [findContactByEmail, createContact, strTruthy, strOrDefault]
          | badResponse st stx =>
              simp [findContactByEmail, createContact, strTruthy, strOrDefault]
          | okResponse cb =>
            rcases cb with ⟨cbid⟩
            rcases cbid with _ | cbid
            · simp [findContactByEmail, createContact, strTruthy, strOrDefault]
            · by_cases hid : cbid = ""
              · simp [findContactByEmail, createContact, strTruthy,
                  strOrDefault, hid]
              · cases f4 with
                | fetchThrow m =>
                    simp [findContactByEmail, createContact, strTruthy, hid]
                | badResponse st stx =>
                    simp [findContactByEmail, createContact, strTruthy, hid]
                | okResponse u =>
                    simp [findContactByEmail, createContact, strTruthy, hid]
      · by_cases hid : id = ""
        · cases cd with
          | none => simp [findContactByEmail, strTruthy, hid]
          | some c =>
            cases f3 with
            | fetchThrow m =>
                simp [findContactByEmail, createContact, strTruthy,
                  strOrDefault, hid]
            | badResponse st stx =>
                simp [findContactByEmail, createContact, strTruthy,
                  strOrDefault, hid]
            | okResponse cb =>
              rcases cb with ⟨cbid⟩
              rcases cbid with _ | cbid
              · simp [findContactByEmail, createContact, strTruthy,
                  strOrDefault, hid]
              · by_cases hid2 : cbid = ""
                · simp [findContactByEmail, createContact, strTruthy,
                    strOrDefault, hid, hid2]
                · cases f4 with
                  | fetchThrow m =>
                      simp [findContactByEmail, createContact, strTruthy,
                        hid, hid2]
                  | badResponse st stx =>
                      simp [findContactByEmail, createContact, strTruthy,
                        hid, hid2]
                  | okResponse u =>
                      simp [findContactByEmail, createContact, strTruthy,
                        hid, hid2]
        · cases f4 with
          | fetchThrow m => simp [findContactByEmail, strTruthy, hid]
          | badResponse st stx => simp [findContactByEmail, strTruthy, hid]
          | okResponse u => simp [findContactByEmail, strTruthy, hid]

lemma listing_failure_has_error (eid : String) (tok : Option String)
    (f : FetchOutcome SearchBody) :
    ((findListingByExternalId eid tok f).success = false →
      (findListingByExternalId eid tok f).error.isSome = true) ∧
    (tok = none ∨ (∃ m, f = .fetchThrow m) ∨
      (∃ st stx, f = .badResponse st stx) →
      (findListingByExternalId eid tok f).success = false) := by
  by_cases hb : jsTrim eid = ""
  · cases tok <;> cases f <;> simp [findListingByExternalId, hb]
  · cases tok with
    | none => simp [findListingByExternalId, hb]
    | some t =>
      cases f with
      | fetchThrow m => simp [findListingByExternalId, hb]
      | badResponse st stx => simp [findListingByExternalId, hb]
      | okResponse body =>
        rcases body with ⟨res⟩
        rcases res with _ | ⟨_ | ⟨id, rest⟩⟩ <;> simp [findListingByExternalId, hb]

lemma assoc_failure_has_error (cid lid : String) (tok : Option String)
    (f : FetchOutcome AssocBody) :
    ((associateContactToListing cid lid tok f).success = false →
      (associateContactToListing cid lid tok f).error.isSome = true) ∧
    ((jsTrim cid ≠ "" ∧ jsTrim lid ≠ "") →
      (tok = none ∨ (∃ m, f = .fetchThrow m) ∨
        (∃ st stx, f = .badResponse st stx)) →
      (associateContactToListing cid lid tok f).success = false) := by
  by_cases h1 : jsTrim cid = ""
  · cases tok <;> cases f <;> simp [associateContactToListing, h1]
  · by_cases h2 : jsTrim lid = ""
    · cases tok <;> cases f <;> simp [associateContactToListing, h1, h2]
    · cases tok with
      | none => simp [associateContactToListing, h1, h2]
      | some t =>
        cases f with
        | fetchThrow m => simp [associateContactToListing, h1, h2]
        | badResponse st stx => simp [associateContactToListing, h1, h2]
        | okResponse body =>
          rcases body with ⟨errs⟩
          rcases errs with _ | ⟨_ | ⟨e, rest⟩⟩ <;>
            simp [associateContactToListing, h1, h2]

/-! ### Claim theorems -/

/-- C1: in the orchestrated workflow, whenever the association step is
invoked, the listing id it receives is exactly the CRM-internal id that
`findListingByExternalId` resolved (and the contact id is the one the
consent step resolved) — never the caller-supplied external join key —
and the association is attempted only when listing resolution succeeded:
if the resolver reported not-found or lookup failure (`success = false`),
no association call is made. -/
theorem association_uses_resolved_listing_id (body : Option Payload) (w : World)
    (fd : RequestInfoFormData) (hv : validatePayload body = .ok fd) :
    (∀ cid lid, (POST body w).2.assocArgs = some (cid, lid) →
       (listingStep fd w).success = true ∧
       some lid = (listingStep fd w).listingId ∧
       some cid = (consentStep fd w).contactId) ∧
    ((listingStep fd w).success = false → (POST body w).2.assocArgs = none) := by
  rw [POST_ok_eq body w fd hv]
  cases hb : (contactStep fd w).success with
  | false =>
      rw [handleValidated_contact_fail fd w hb]
      simp
  | true =>
      cases hl : (listingStep fd w).success with
      | false =>
          rw [handleValidated_listing_fail fd w hb hl]
          simp
      | true =>
          cases ht : (strTruthy (consentStep fd w).contactId &&
              strTruthy (listingStep fd w).listingId) with
          | false =>
              rw [handleValidated_assoc_skip fd w hb hl ht]
              simp [hl]
          | true =>
              rw [handleValidated_assoc fd w hb hl ht]
              rw [Bool.and_eq_true] at ht
              obtain ⟨h1, h2⟩ := ht
              obtain ⟨sc, hsc, hscne⟩ := (strTruthy_eq_true_iff _).1 h1
              obtain ⟨sl, hsl, hslne⟩ := (strTruthy_eq_true_iff _).1 h2
              constructor
              · intro cid lid hargs
                have hargs2 : ((consentStep fd w).contactId.getD "",
                    (listingStep fd w).listingId.getD "") = (cid, lid) :=
                  Option.some.inj hargs
                cases hargs2
                refine ⟨rfl, ?_, ?_⟩
                · simp [hsl]
                · simp [hsc]
              · intro hcon
                exact Bool.noConfusion hcon

theorem association_uses_resolved_listing_id_witness :
    (listingStep johnForm patchFailWorld).success = true ∧
    some "202" = (listingStep johnForm patchFailWorld).listingId ∧
    some "101" = (consentStep johnForm patchFailWorld).contactId :=
  (association_uses_resolved_listing_id (some johnPayload) patchFailWorld
    johnForm (by decide)).1 "101" "202" (by decide)

/-- C2: for every validated request, the endpoint's overall success flag
equals the contact-upsert step's success flag, regardless of the other
steps; and a contact-upsert success followed by a listing-lookup
not-found yields HTTP 200 with `success:true`, `listingFound:false`,
`associationCreated:false`, and the listing-not-found message. -/
theorem success_flag_tracks_contact_upsert (body : Option Payload) (w : World)
    (fd : RequestInfoFormData) (hv : validatePayload body = .ok fd) :
    ((POST body w).1.success = (contactStep fd w).success) ∧
    ((contactStep fd w).success = true → (listingStep fd w).success = false →
      (listingStep fd w).notFound = true →
      (POST body w).1.status = 200 ∧ (POST body w).1.success = true ∧
      (POST body w).1.details =
        some ⟨true, (consentStep fd w).success, false, false⟩ ∧
      (POST body w).1.message =
        listingNotFoundResponseMessage fd.external_listing_id) := by
  rw [POST_ok_eq body w fd hv]
  cases hb : (contactStep fd w).success with
  | false =>
      rw [handleValidated_contact_fail fd w hb]
      simp
  | true =>
      cases hl : (listingStep fd w).success with
      | false =>
          rw [handleValidated_listing_fail fd w hb hl]
          refine ⟨rfl, fun _ _ hnf => ⟨rfl, rfl, rfl, ?_⟩⟩
          exact listingFailureMessage_notFound fd _ hnf
      | true =>
          cases ht : (strTruthy (consentStep fd w).contactId &&
              strTruthy (listingStep fd w).listingId) with
          | false =>
              rw [handleValidated_assoc_skip fd w hb hl ht]
              exact ⟨rfl, fun _ hfalse => Bool.noConfusion hfalse⟩
          | true =>
              rw [handleValidated_assoc fd w hb hl ht]
              exact ⟨rfl, fun _ hfalse => Bool.noConfusion hfalse⟩

theorem success_flag_tracks_contact_upsert_witness :
    (POST (some johnPayload) listingMissingWorld).1.status = 200 ∧
    (POST (some johnPayload) listingMissingWorld).1.success = true ∧
    (POST (some johnPayload) listingMissingWorld).1.details =
      some ⟨true, true, false, false⟩ :=
  let h := (success_flag_tracks_contact_upsert (some johnPayload)
    listingMissingWorld johnForm (by decide)).2 (by decide) (by decide) (by decide)
  ⟨h.1, h.2.1, h.2.2.1⟩

/-- C3: for every validated request whose contact upsert fails, the
endpoint returns HTTP 500 with `success:false` and a details object whose
four flags are all false, and attempts no further remote step: the
consent, listing-lookup and association wrappers are never invoked. -/
theorem contact_upsert_failure_is_fatal (body : Option Payload) (w : World)
    (fd : RequestInfoFormData) (hv : validatePayload body = .ok fd)
    (hf : (submitContactToHubSpot fd w.portalId w.formGuid w.submitFetch).success = false) :
    (POST body w).1.status = 500 ∧ (POST body w).1.success = false ∧
    (POST body w).1.details = some ⟨false, false, false, false⟩ ∧
    (POST body w).2 = { submitCalled := true, consentCalled := false,
                        createCalled := false, listingCalled := false,
                        assocArgs := none } := by
  rw [POST_ok_eq body w fd hv,
    handleValidated_contact_fail fd w (by simpa [contactStep] using hf)]
  simp

theorem contact_upsert_failure_is_fatal_witness :
    (POST (some johnPayload) contactFailWorld).1.status = 500 ∧
    (POST (some johnPayload) contactFailWorld).1.success = false ∧
    (POST (some johnPayload) contactFailWorld).1.details =
      some ⟨false, false, false, false⟩ ∧
    (POST (some johnPayload) contactFailWorld).2 =
      { submitCalled := true, consentCalled := false, createCalled := false,
        listingCalled := false, assocArgs := none } :=
  contact_upsert_failure_is_fatal (some johnPayload) contactFailWorld johnForm
    (by decide) (by decide)

/-- C4: for every object payload whose `marketing_opt_in` value is not
the strict boolean `true` (absent, `false`, the string `"true"`, or any
other value), the endpoint returns HTTP 400 with a structured field error
naming `marketing_opt_in`, and no outbound remote call is made (the call
log is empty). -/
theorem strict_marketing_opt_in_required (p : Payload) (w : World)
    (h : p.marketing_opt_in ≠ some (.jbool true)) :
    (POST (some p) w).1.status = 400 ∧ (POST (some p) w).1.success = false ∧
    (∃ errs, (POST (some p) w).1.errors = some errs ∧
      (⟨"marketing_opt_in",
        "You must agree to receive marketing communications to submit this form."⟩ :
        ValidationError) ∈ errs) ∧
    (POST (some p) w).2 = { submitCalled := false, consentCalled := false,
                            createCalled := false, listingCalled := false,
                            assocArgs := none } := by
  have hmo : marketingOptInErrors p.marketing_opt_in =
      [⟨"marketing_opt_in",
        "You must agree to receive marketing communications to submit this form."⟩] := by
    simp [marketingOptInErrors, h]
  simp only [POST, validatePayload, hmo]
  have hne : (emailErrors p.email ++
      requiredStringError p.external_listing_id "external_listing_id"
        "External listing ID is required" ++
      [(⟨"marketing_opt_in",
        "You must agree to receive marketing communications to submit this form."⟩ :
        ValidationError)] ++
      requiredStringError p.firstname "firstname" "First name is required" ++
      requiredStringError p.lastname "lastname" "Last name is required").isEmpty
      = false := by
    simp [List.isEmpty_iff]
  rw [hne]
  simp [List.mem_append]

theorem strict_marketing_opt_in_required_witness :
    (POST (some optOutPayload) {}).1.status = 400 ∧
    (POST (some optOutPayload) {}).1.success = false ∧
    (∃ errs, (POST (some optOutPayload) {}).1.errors = some errs ∧
      (⟨"marketing_opt_in",
        "You must agree to receive marketing communications to submit this form."⟩ :
        ValidationError) ∈ errs) ∧
    (POST (some optOutPayload) {}).2 =
      { submitCalled := false, consentCalled := false, createCalled := false,
        listingCalled := false, assocArgs := none } :=
  strict_marketing_opt_in_required optOutPayload {} (by decide)

/-- C5: every payload that passes validation is normalized before being
passed downstream: the email is trimmed and lower-cased, and the
external_listing_id, firstname and lastname are trimmed.  (At the spec's
scenario literal — see the witness — the email "JOHN.DOE@Example.com"
becomes "john.doe@example.com" and " 22317 " becomes "22317".) -/
theorem validation_normalizes_fields (p : Payload) (fd : RequestInfoFormData)
    (hv : validatePayload (some p) = .ok fd) :
    (∀ s, p.email = some (.jstr s) → fd.email = jsToLower (jsTrim s)) ∧
    (∀ s, p.external_listing_id = some (.jstr s) →
      fd.external_listing_id = jsTrim s) ∧
    (∀ s, p.firstname = some (.jstr s) → fd.firstname = jsTrim s) ∧
    (∀ s, p.lastname = some (.jstr s) → fd.lastname = jsTrim s) := by
  simp only [validatePayload] at hv
  split at hv
  · cases hv
    refine ⟨?_, ?_, ?_, ?_⟩ <;> (intro s hs; simp [asStr, hs])
  · exact ValidationOutcome.noConfusion hv

theorem validation_normalizes_fields_witness :
    validatePayload (some johnPayload) = .ok johnForm ∧
    johnForm.email = jsToLower (jsTrim "JOHN.DOE@Example.com") ∧
    johnForm.email = "john.doe@example.com" ∧
    johnForm.external_listing_id = jsTrim " 22317 " ∧
    johnForm.external_listing_id = "22317" :=
  ⟨by decide,
   (validation_normalizes_fields johnPayload johnForm (by decide)).1 _ rfl,
   by decide,
   (validation_normalizes_fields johnPayload johnForm (by decide)).2.1 _ rfl,
   by decide⟩

/-- C6: for every input, `findListingByExternalId` lands in exactly one of
three mutually distinguishable outcomes: success carrying a resolved
listing id with `notFound = false`; not-found (`success = false`,
`notFound = true`) with an error description; or lookup failure
(`success = false`, `notFound = false`) with an error description. -/
theorem listing_lookup_trichotomy (externalListingId : String)
    (accessToken : Option String) (fetch : FetchOutcome SearchBody) :
    ((findListingByExternalId externalListingId accessToken fetch).success = true ∧
     (findListingByExternalId externalListingId accessToken fetch).listingId.isSome = true ∧
     (findListingByExternalId externalListingId accessToken fetch).notFound = false) ∨
    ((findListingByExternalId externalListingId accessToken fetch).success = false ∧
     (findListingByExternalId externalListingId accessToken fetch).listingId = none ∧
     (findListingByExternalId externalListingId accessToken fetch).notFound = true ∧
     (findListingByExternalId externalListingId accessToken fetch).error.isSome = true) ∨
    ((findListingByExternalId externalListingId accessToken fetch).success = false ∧
     (findListingByExternalId externalListingId accessToken fetch).listingId = none ∧
     (findListingByExternalId externalListingId accessToken fetch).notFound = false ∧
     (findListingByExternalId externalListingId accessToken fetch).error.isSome = true) := by
  by_cases hb : jsTrim externalListingId = ""
  · right; right; simp [findListingByExternalId, hb]
  · cases accessToken with
    | none => right; right; simp [findListingByExternalId, hb]
    | some t =>
      cases fetch with
      | fetchThrow m => right; right; simp [findListingByExternalId, hb]
      | badResponse st stx => right; right; simp [findListingByExternalId, hb]
      | okResponse body =>
        rcases body with ⟨res⟩
        rcases res with _ | ⟨_ | ⟨id, rest⟩⟩
        · right; left; simp [findListingByExternalId, hb]
        · right; left; simp [findListingByExternalId, hb]
        · left; simp [findListingByExternalId, hb]

/-- C7: any failure of the consent step does not abort the workflow — the
handler still performs listing resolution, the overall response is a
success, and every details object reports `marketingConsentSet = false`;
moreover, when a contact id was resolved despite the failure (e.g. the
patch failed after the id was found) and the listing resolved to a truthy
id, that contact id is passed to the association attempt. -/
theorem consent_failure_is_tolerated (body : Option Payload) (w : World)
    (fd : RequestInfoFormData) (hv : validatePayload body = .ok fd)
    (hc : (contactStep fd w).success = true)
    (hm : (consentStep fd w).success = false) :
    (POST body w).2.listingCalled = true ∧
    (POST body w).1.success = true ∧
    (∀ d, (POST body w).1.details = some d → d.marketingConsentSet = false) ∧
    ((listingStep fd w).success = true →
     strTruthy (consentStep fd w).contactId = true →
     strTruthy (listingStep fd w).listingId = true →
     (POST body w).2.assocArgs =
       some ((consentStep fd w).contactId.getD "",
         (listingStep fd w).listingId.getD "")) := by
  rw [POST_ok_eq body w fd hv]
  cases hl : (listingStep fd w).success with
  | false =>
      rw [handleValidated_listing_fail fd w hc hl]
      refine ⟨rfl, rfl, ?_, fun hfalse => Bool.noConfusion hfalse⟩
      intro d hd
      cases Option.some.inj hd
      simpa using hm
  | true =>
      cases ht : (strTruthy (consentStep fd w).contactId &&
          strTruthy (listingStep fd w).listingId) with
      | false =>
          rw [handleValidated_assoc_skip fd w hc hl ht]
          refine ⟨rfl, rfl, ?_, ?_⟩
          · intro d hd
            cases Option.some.inj hd
            simpa using hm
          · intro _ h1 h2
            rw [h1, h2] at ht
            exact Bool.noConfusion ht
      | true =>
          rw [handleValidated_assoc fd w hc hl ht]
          refine ⟨rfl, rfl, ?_, ?_⟩
          · intro d hd
            cases Option.some.inj hd
            simpa using hm
          · intro _ _ _
            rfl

theorem consent_failure_is_tolerated_witness :
    (POST (some johnPayload) patchFailWorld).2.listingCalled = true ∧
    (POST (some johnPayload) patchFailWorld).1.success = true ∧
    (POST (some johnPayload) patchFailWorld).2.assocArgs =
      some ("101", "202") :=
  let h := consent_failure_is_tolerated (some johnPayload) patchFailWorld
    johnForm (by decide) (by decide) (by decide)
  ⟨h.1, h.2.1, h.2.2.2 (by decide) (by decide) (by decide)⟩

/-- C8: every remote-call wrapper returns a structured outcome value (the
embedding is a total function into the result record): whenever it
reports failure the error field is populated, and every exceptional
condition — missing configuration (a `none` environment value), a thrown
fetch/parse exception, or a non-2xx response — is converted into such a
failure result (for the associator, once its own defensive guards pass).
No exception crosses the wrapper boundary. -/
theorem wrappers_return_structured_outcomes (fd : RequestInfoFormData)
    (email eid : String) (ccd : ContactCreateData)
    (ocd : Option ConsentContactData) (cid lid : String)
    (p g tok : Option String) (f1 : FetchOutcome FormSubmitBody)
    (f2 f5 : FetchOutcome SearchBody) (f3 : FetchOutcome CreateBody)
    (f4 : FetchOutcome Unit) (f6 : FetchOutcome AssocBody) :
    (((submitContactToHubSpot fd p g f1).success = false →
        (submitContactToHubSpot fd p g f1).error.isSome = true) ∧
      (p = none ∨ g = none ∨ (∃ m, f1 = .fetchThrow m) ∨
        (∃ st stx, f1 = .badResponse st stx) →
        (submitContactToHubSpot fd p g f1).success = false)) ∧
    (((findContactByEmail email tok f2).success = false →
        (findContactByEmail email tok f2).error.isSome = true) ∧
      (tok = none ∨ (∃ m, f2 = .fetchThrow m) ∨
        (∃ st stx, f2 = .badResponse st stx) →
        (findContactByEmail email tok f2).success = false)) ∧
    (((createContact ccd tok f3).success = false →
        (createContact ccd tok f3).error.isSome = true) ∧
      (tok = none ∨ (∃ m, f3 = .fetchThrow m) ∨
        (∃ st stx, f3 = .badResponse st stx) →
        (createContact ccd tok f3).success = false)) ∧
    (((setMarketingConsent email ocd tok f2 f3 f4).success = false →
        (setMarketingConsent email ocd tok f2 f3 f4).error.isSome = true) ∧
      (tok = none ∨ (∃ m, f4 = .fetchThrow m) ∨
        (∃ st stx, f4 = .badResponse st stx) →
        (setMarketingConsent email ocd tok f2 f3 f4).success = false)) ∧
    (((findListingByExternalId eid tok f5).success = false →
        (findListingByExternalId eid tok f5).error.isSome = true) ∧
      (tok = none ∨ (∃ m, f5 = .fetchThrow m) ∨
        (∃ st stx, f5 = .badResponse st stx) →
        (findListingByExternalId eid tok f5).success = false)) ∧
    (((associateContactToListing cid lid tok f6).success = false →
        (associateContactToListing cid lid tok f6).error.isSome = true) ∧
      ((jsTrim cid ≠ "" ∧ jsTrim lid ≠ "") →
        (tok = none ∨ (∃ m, f6 = .fetchThrow m) ∨
          (∃ st stx, f6 = .badResponse st stx)) →
        (associateContactToListing cid lid tok f6).success = false)) :=
  ⟨submit_failure_has_error fd p g f1,
   contact_search_failure_has_error email tok f2,
   create_failure_has_error ccd tok f3,
   consent_failure_has_error email ocd tok f2 f3 f4,
   listing_failure_has_error eid tok f5,
   assoc_failure_has_error cid lid tok f6⟩

theorem wrappers_return_structured_outcomes_witness :
    (submitContactToHubSpot johnForm none none (.fetchThrow "boom")).success
      = false ∧
    (submitContactToHubSpot johnForm none none (.fetchThrow "boom")).error.isSome
      = true :=
  let h := wrappers_return_structured_outcomes johnForm "a@b.c" "22317"
    ⟨"a@b.c", "John", "Doe", none⟩ none "101" "202" none none none
    (.fetchThrow "boom") (.fetchThrow "x") (.fetchThrow "x") (.fetchThrow "x")
    (.fetchThrow "x") (.fetchThrow "x")
  ⟨h.1.2 (Or.inl rfl), h.1.1 (h.1.2 (Or.inl rfl))⟩

/-- C9: the POST workflow invokes the consent step with the email only and
no fallback contact details, so the create-contact compensation path of
`setMarketingConsent` is unreachable from the endpoint: whenever the
contact search by email succeeds with no (truthy) contact id, the consent
step fails without invoking `createContact`, yields no contact id, every
details object reports `marketingConsentSet = false`, and the association
step is skipped. -/
theorem consent_creation_path_unreachable (body : Option Payload) (w : World)
    (fd : RequestInfoFormData) (hv : validatePayload body = .ok fd)
    (hc : (contactStep fd w).success = true)
    (hs : (findContactByEmail fd.email w.accessToken w.contactSearchFetch).success = true)
    (hn : strTruthy (findContactByEmail fd.email w.accessToken
      w.contactSearchFetch).contactId = false) :
    (POST body w).2.createCalled = false ∧
    (consentStep fd w).success = false ∧
    (consentStep fd w).contactId = none ∧
    (∀ d, (POST body w).1.details = some d → d.marketingConsentSet = false) ∧
    (POST body w).2.assocArgs = none := by
  have htok : w.accessToken.isSome := by
    cases htk : w.accessToken with
    | none => simp [findContactByEmail, htk] at hs
    | some t => rfl
  obtain ⟨t, htk⟩ := Option.isSome_iff_exists.1 htok
  have haux : consentStepAux fd w =
      ({ success := false,
         error := some "Contact not found in HubSpot and no contact data provided for creation",
         contactId := none }, false) := by
    simp only [consentStepAux, htk]
    simp only [setMarketingConsentAux]
    rw [← htk]
    simp [hs, hn]
  have hcons : consentStep fd w =
      { success := false,
        error := some "Contact not found in HubSpot and no contact data provided for creation",
        contactId := none } := by
    have h1 : consentStep fd w = (consentStepAux fd w).1 := rfl
    rw [h1, haux]
  have hmf : (consentStep fd w).success = false := by rw [hcons]
  have hnone : (consentStep fd w).contactId = none := by rw [hcons]
  rw [POST_ok_eq body w fd hv]
  cases hl : (listingStep fd w).success with
  | false =>
      rw [handleValidated_listing_fail fd w hc hl]
      refine ⟨?_, hmf, hnone, ?_, rfl⟩
      · simp [haux]
      · intro d hd
        cases Option.some.inj hd
        simpa using hmf
  | true =>
      have ht : (strTruthy (consentStep fd w).contactId &&
          strTruthy (listingStep fd w).listingId) = false := by
        rw [hnone]; simp [strTruthy]
      rw [handleValidated_assoc_skip fd w hc hl ht]
      refine ⟨?_, hmf, hnone, ?_, rfl⟩
      · simp [haux]
      · intro d hd
        cases Option.some.inj hd
        simpa using hmf

theorem consent_creation_path_unreachable_witness :
    (POST (some johnPayload) contactMissingWorld).2.createCalled = false ∧
    (consentStep johnForm contactMissingWorld).success = false ∧
    (consentStep johnForm contactMissingWorld).contactId = none ∧
    (POST (some johnPayload) contactMissingWorld).2.assocArgs = none :=
  let h := consent_creation_path_unreachable (some johnPayload)
    contactMissingWorld johnForm (by decide) (by decide) (by decide) (by decide)
  ⟨h.1, h.2.1, h.2.2.1, h.2.2.2.2⟩

/-- C10: in every endpoint response that carries a details object, the
four flags satisfy the implication chain `associationCreated →
listingFound → contactSubmitted` and `marketingConsentSet →
contactSubmitted`: no step flag is ever true unless the contact upsert
succeeded. -/
theorem details_flags_monotone (body : Option Payload) (w : World) (d : Details)
    (h : (POST body w).1.details = some d) :
    (d.associationCreated = true → d.listingFound = true) ∧
    (d.listingFound = true → d.contactSubmitted = true) ∧
    (d.marketingConsentSet = true → d.contactSubmitted = true) := by
  cases hv : validatePayload body with
  | invalid errs =>
      simp only [POST, hv] at h
      simp at h
  | ok fd =>
      rw [POST_ok_eq body w fd hv] at h
      cases hb : (contactStep fd w).success with
      | false =>
          rw [handleValidated_contact_fail fd w hb] at h
          cases d; simp_all
      | true =>
          cases hl : (listingStep fd w).success with
          | false =>
              rw [handleValidated_listing_fail fd w hb hl] at h
              cases d; simp_all
          | true =>
              cases ht : (strTruthy (consentStep fd w).contactId &&
                  strTruthy (listingStep fd w).listingId) with
              | false =>
                  rw [handleValidated_assoc_skip fd w hb hl ht] at h
                  cases d; simp_all
              | true =>
                  rw [handleValidated_assoc fd w hb hl ht] at h
                  cases d; simp_all

theorem details_flags_monotone_witness :
    ((⟨false, false, false, false⟩ : Details).associationCreated = true →
      (⟨false, false, false, false⟩ : Details).listingFound = true) ∧
    ((⟨false, false, false, false⟩ : Details).listingFound = true →
      (⟨false, false, false, false⟩ : Details).contactSubmitted = true) ∧
    ((⟨false, false, false, false⟩ : Details).marketingConsentSet = true →
      (⟨false, false, false, false⟩ : Details).contactSubmitted = true) :=
  details_flags_monotone (some johnPayload) contactFailWorld
    ⟨false, false, false, false⟩ (by decide)

end VrmRequestInfo
